import Mathlib

/-!
Shallow embedding of the hospital_system outpatient registration manager
(`src/hospital_system`): the SQLAlchemy models become Lean structures, the
repository queries become pure functions over an in-memory database value,
and the service-layer use cases (`HospitalService`) become functions that
return an `Except` outcome together with the post-transaction database
state (the state returned on an error is the rolled-back one).

Timestamps are modelled as integer seconds (`Int`); `timedelta(minutes=14,
seconds=59)` is the constant 899, and `strftime("%Y-%m-%d %H:%M")` equality
(minute truncation) is floor division by 60.
-/

namespace HospitalSystem

/-- Model of `models.Department`: id, unique name, optional description. -/
structure Department where
  id : Nat
  name : String
  description : Option String
  deriving Repr, DecidableEq

/-- Model of `models.Doctor`: id, name, optional specialization/contact, department FK. -/
structure Doctor where
  id : Nat
  name : String
  specialization : Option String
  contact : Option String
  department_id : Nat
  deriving Repr, DecidableEq

/-- Model of `models.Patient`. -/
structure Patient where
  id : Nat
  name : String
  date_of_birth : Option Int
  contact_info : Option String
  address : Option String
  deriving Repr, DecidableEq

/-- Model of `models.Registration`: FKs, visit timestamp, status string, symptoms. -/
structure Registration where
  id : Nat
  patient_id : Nat
  doctor_id : Nat
  department_id : Nat
  visit_time : Int
  status : String
  symptoms : Option String
  created_at : Int
  deriving Repr, DecidableEq

/-- The relational store: the four tables, autoincrement counters, and a
flag modelling a read-only (write-refusing) SQLite file, which makes
flush/commit raise `OperationalError`. -/
structure DB where
  departments : List Department
  doctors : List Doctor
  patients : List Patient
  registrations : List Registration
  nextDeptId : Nat
  nextRegId : Nat
  readOnly : Bool
  deriving Repr, DecidableEq

/-- The exceptions surfaced by the layers under test: the package's own
taxonomy (`exceptions.py`) plus the raw SQLAlchemy exceptions that escape
uncaught (`NoResultFound` from `scalar_one`, `MultipleResultsFound` from
`scalar_one_or_none`, `IntegrityError` and `OperationalError` from flush
or commit). -/
inductive Err where
  | resourceNotFound (msg : String)
  | validationError (msg : String)
  | doctorBusy (msg : String)
  | patientBusy (msg : String)
  | noResultFound
  | multipleResultsFound
  | integrityError
  | operationalError
  deriving Repr, DecidableEq

/-- Lookup `session.get(models.Patient, patient_id)`. -/
def findPatient (db : DB) (patient_id : Nat) : Option Patient :=
  db.patients.find? (fun p => p.id == patient_id)

/-- Lookup `select(Doctor).where(Doctor.id == doctor_id)` resolved to at most one
row (ids are the primary key). -/
def findDoctor (db : DB) (doctor_id : Nat) : Option Doctor :=
  db.doctors.find? (fun d => d.id == doctor_id)

/-- Lookup `session.get(models.Department, department_id)`. -/
def findDepartment (db : DB) (department_id : Nat) : Option Department :=
  db.departments.find? (fun d => d.id == department_id)

/-- Lookup `session.get(models.Registration, registration_id)`. -/
def findRegistration (db : DB) (registration_id : Nat) : Option Registration :=
  db.registrations.find? (fun r => r.id == registration_id)

/-- The cancellation marker string used throughout `services.py` and
`repositories.py`. -/
def cancelledStatus : String := "已取消"

/-- Membership in the protected window of `create_registration`:
`window_start = visit_time - 14:59` and `window_end = visit_time + 14:59`,
both comparisons inclusive. -/
def inWindow (visit_time t : Int) : Bool :=
  decide (visit_time - 899 ≤ t) && decide (t ≤ visit_time + 899)

/-- Minute truncation: `strftime("%Y-%m-%d %H:%M", t)` keys are equal
exactly when the floor-by-60 quotients are. -/
def minuteKey (t : Int) : Int := Int.ediv t 60

/-- The doctor-side window query of `create_registration` (lines 92-101):
same doctor, status not cancelled, visit time inside the closed window. -/
def windowConflictsDoctor (db : DB) (doctor_id : Nat) (visit_time : Int) :
    List Registration :=
  db.registrations.filter (fun r =>
    r.doctor_id == doctor_id && r.status != cancelledStatus &&
      inWindow visit_time r.visit_time)

/-- The patient-side window query of `create_registration` (lines 106-115). -/
def windowConflictsPatient (db : DB) (patient_id : Nat) (visit_time : Int) :
    List Registration :=
  db.registrations.filter (fun r =>
    r.patient_id == patient_id && r.status != cancelledStatus &&
      inWindow visit_time r.visit_time)

/-- Model of `RegistrationRepository.exists_conflict`: a non-cancelled registration
for the doctor at the same minute. -/
def exists_conflict (db : DB) (doctor_id : Nat) (visit_time : Int) : Bool :=
  db.registrations.any (fun r =>
    r.doctor_id == doctor_id &&
      minuteKey r.visit_time == minuteKey visit_time &&
      r.status != cancelledStatus)

/-- Model of `RegistrationRepository.exists_patient_conflict`. -/
def exists_patient_conflict (db : DB) (patient_id : Nat) (visit_time : Int) :
    Bool :=
  db.registrations.any (fun r =>
    r.patient_id == patient_id &&
      minuteKey r.visit_time == minuteKey visit_time &&
      r.status != cancelledStatus)

/-- Model of `HospitalService.create_department`: delegates to
`DepartmentRepository.create` (add + flush).  The flush hits the unique
constraint on `Department.name` (raw `IntegrityError`) or, on a read-only
store, `OperationalError`; neither is caught in the service. -/
def create_department (db : DB) (name : String) (description : Option String) :
    Except Err Department × DB :=
  if db.readOnly then
    (Except.error Err.operationalError, db)
  else if db.departments.any (fun d => d.name == name) then
    (Except.error Err.integrityError, db)
  else
    let dept : Department := { id := db.nextDeptId, name := name, description := description }
    (Except.ok dept,
      { db with departments := db.departments ++ [dept], nextDeptId := db.nextDeptId + 1 })

/-- Model of `HospitalService.create_registration` (services.py lines 67-135),
branch for branch:
1. `patients.get` — `ResourceNotFoundError` when absent;
2. locked doctor read via `scalar_one()` — raw `NoResultFound` when absent;
3. locked patient re-read (succeeds: the row was found in step 1);
4. `departments.get` — `ResourceNotFoundError` when absent;
5. department/doctor consistency, then past-time check — `ValidationError`;
6. doctor window query via `scalar_one_or_none()` — `DoctorBusyError` on one
   row, raw `MultipleResultsFound` on two or more;
7. patient window query likewise — `PatientBusyError` / `MultipleResultsFound`;
8. exact-minute guards via `exists_conflict` / `exists_patient_conflict`;
9. insert + flush (fails with `OperationalError` on a read-only store).
`now` is the value of `datetime.now()` at the validation step. -/
def create_registration (db : DB) (now : Int) (patient_id doctor_id department_id : Nat)
    (visit_time : Int) (status : String) (symptoms : Option String) :
    Except Err Registration × DB :=
  match findPatient db patient_id with
  | none => (Except.error (Err.resourceNotFound "Patient not found."), db)
  | some patient =>
    match findDoctor db doctor_id with
    | none => (Except.error Err.noResultFound, db)
    | some doctor =>
      match findDepartment db department_id with
      | none => (Except.error (Err.resourceNotFound "Department not found."), db)
      | some department =>
        if doctor.department_id ≠ department.id then
          (Except.error (Err.validationError "Doctor must belong to the selected department."), db)
        else if visit_time < now then
          (Except.error (Err.validationError "Visit time cannot be in the past."), db)
        else
          match windowConflictsDoctor db doctor.id visit_time with
          | _ :: _ :: _ => (Except.error Err.multipleResultsFound, db)
          | [_] =>
            (Except.error (Err.doctorBusy "该医生在该时间段已有预约，请刷新后选择其他时段"), db)
          | [] =>
            match windowConflictsPatient db patient.id visit_time with
            | _ :: _ :: _ => (Except.error Err.multipleResultsFound, db)
            | [_] =>
              (Except.error (Err.patientBusy "该患者在该时间段已有预约，请刷新后选择其他时段"), db)
            | [] =>
              if exists_conflict db doctor.id visit_time then
                (Except.error (Err.doctorBusy "该医生在该时间段已有预约，请刷新后选择其他时段"), db)
              else if exists_patient_conflict db patient.id visit_time then
                (Except.error (Err.patientBusy "该患者在该时间段已有预约，请刷新后选择其他时段"), db)
              else if db.readOnly then
                (Except.error Err.operationalError, db)
              else
                let reg : Registration :=
                  { id := db.nextRegId, patient_id := patient.id, doctor_id := doctor.id,
                    department_id := department.id, visit_time := visit_time,
                    status := status, symptoms := symptoms, created_at := now }
                (Except.ok reg,
                  { db with registrations := db.registrations ++ [reg],
                            nextRegId := db.nextRegId + 1 })

/-- Calendar-day truncation used by the `func.date(...)` filter of
`RegistrationRepository.list`. -/
def dateKey (t : Int) : Int := Int.ediv t 86400

/-- Model of `HospitalService.list_registrations` delegating to
`RegistrationRepository.list`: optional department filter, optional exact
visit-date filter, and a status filter that is skipped for `None` and for
the empty string (Python truthiness: `if status:`). -/
def list_registrations (db : DB) (department_id : Option Nat)
    (visit_date : Option Int) (status : Option String) : List Registration :=
  db.registrations.filter (fun r =>
    (match department_id with
     | some d => r.department_id == d
     | none => true) &&
    (match visit_date with
     | some d => dateKey r.visit_time == d
     | none => true) &&
    (match status with
     | some s => if s = "" then true else r.status == s
     | none => true))

/-- Model of `HospitalService.complete_registration`: load (or
`ResourceNotFoundError`), set status to `"completed"`, flush + commit; an
`OperationalError` (read-only store) rolls back and is re-raised as
`ValidationError`. -/
def complete_registration (db : DB) (registration_id : Nat) :
    Except Err Registration × DB :=
  match findRegistration db registration_id with
  | none => (Except.error (Err.resourceNotFound "Registration not found."), db)
  | some reg =>
    if db.readOnly then
      (Except.error (Err.validationError "数据库为只读，无法更新挂号状态。"), db)
    else
      let reg2 : Registration := { reg with status := "completed" }
      (Except.ok reg2,
        { db with registrations :=
            db.registrations.map (fun r =>
              if r.id == registration_id then { r with status := "completed" } else r) })

/-- Model of `HospitalService.delete_registration`: load (or
`ResourceNotFoundError`), delete + commit; an `OperationalError`
(read-only store) rolls back and is re-raised as `ValidationError`. -/
def delete_registration (db : DB) (registration_id : Nat) :
    Except Err Unit × DB :=
  match findRegistration db registration_id with
  | none => (Except.error (Err.resourceNotFound "Registration not found."), db)
  | some _ =>
    if db.readOnly then
      (Except.error (Err.validationError "数据库为只读，无法删除挂号记录。"), db)
    else
      (Except.ok (),
        { db with registrations :=
            db.registrations.filter (fun r => r.id != registration_id) })

/-- Classification helper: did the operation succeed? -/
def isOkResult {α : Type} (e : Except Err α) : Bool :=
  match e with
  | Except.ok _ => true
  | Except.error _ => false

/-- Classification helper: is the outcome the taxonomy's not-found error
(`ResourceNotFoundError`)? -/
def isNotFoundErr {α : Type} (e : Except Err α) : Bool :=
  match e with
  | Except.error (Err.resourceNotFound _) => true
  | _ => false

/-- Classification helper: is the outcome the taxonomy's
`ValidationError`? -/
def isValidationErr {α : Type} (e : Except Err α) : Bool :=
  match e with
  | Except.error (Err.validationError _) => true
  | _ => false

/-- An active (non-cancelled) registration for the doctor lies in the
closed protected window around `visit_time`. -/
def doctorWindowConflict (db : DB) (doctor_id : Nat) (visit_time : Int) : Prop :=
  ∃ r ∈ db.registrations, r.doctor_id = doctor_id ∧ r.status ≠ cancelledStatus ∧
    visit_time - 899 ≤ r.visit_time ∧ r.visit_time ≤ visit_time + 899

/-- An active registration for the patient lies in the closed protected
window around `visit_time`. -/
def patientWindowConflict (db : DB) (patient_id : Nat) (visit_time : Int) : Prop :=
  ∃ r ∈ db.registrations, r.patient_id = patient_id ∧ r.status ≠ cancelledStatus ∧
    visit_time - 899 ≤ r.visit_time ∧ r.visit_time ≤ visit_time + 899

instance (db : DB) (i : Nat) (t : Int) : Decidable (doctorWindowConflict db i t) := by
  unfold doctorWindowConflict; infer_instance

instance (db : DB) (i : Nat) (t : Int) : Decidable (patientWindowConflict db i t) := by
  unfold patientWindowConflict; infer_instance

lemma minuteKey_close {a b : Int} (h : minuteKey a = minuteKey b) :
    b - 59 ≤ a ∧ a ≤ b + 59 := by
  unfold minuteKey at h
  have h2 : a / 60 = b / 60 := h
  omega

lemma inWindow_iff {visit_time t : Int} :
    inWindow visit_time t = true ↔
      (visit_time - 899 ≤ t ∧ t ≤ visit_time + 899) := by
  simp [inWindow]

lemma windowConflictsDoctor_eq_nil_iff {db : DB} {doctor_id : Nat} {visit_time : Int} :
    windowConflictsDoctor db doctor_id visit_time = [] ↔
      ¬ doctorWindowConflict db doctor_id visit_time := by
  simp only [windowConflictsDoctor, List.filter_eq_nil_iff, doctorWindowConflict]
  constructor
  · rintro h ⟨r, hr, hdoc, hst, h1, h2⟩
    refine h r hr ?_
    simp only [Bool.and_eq_true, beq_iff_eq, bne_iff_ne, inWindow, decide_eq_true_eq]
    exact ⟨⟨hdoc, hst⟩, h1, h2⟩
  · intro h r hr hp
    simp only [Bool.and_eq_true, bne_iff_ne, beq_iff_eq, inWindow,
      decide_eq_true_eq] at hp
    exact h ⟨r, hr, hp.1.1, hp.1.2, hp.2⟩

lemma windowConflictsPatient_eq_nil_iff {db : DB} {patient_id : Nat} {visit_time : Int} :
    windowConflictsPatient db patient_id visit_time = [] ↔
      ¬ patientWindowConflict db patient_id visit_time := by
  simp only [windowConflictsPatient, List.filter_eq_nil_iff, patientWindowConflict]
  constructor
  · rintro h ⟨r, hr, hdoc, hst, h1, h2⟩
    refine h r hr ?_
    simp only [Bool.and_eq_true, beq_iff_eq, bne_iff_ne, inWindow, decide_eq_true_eq]
    exact ⟨⟨hdoc, hst⟩, h1, h2⟩
  · intro h r hr hp
    simp only [Bool.and_eq_true, bne_iff_ne, beq_iff_eq, inWindow,
      decide_eq_true_eq] at hp
    exact h ⟨r, hr, hp.1.1, hp.1.2, hp.2⟩

/-- If the doctor-side window query returns no rows, the exact-minute
doctor guard cannot fire: equal minute keys force the two times within 59
seconds of each other, well inside the 899-second radius. -/
lemma window_nil_exists_conflict_false {db : DB} {doctor_id : Nat} {visit_time : Int}
    (h : windowConflictsDoctor db doctor_id visit_time = []) :
    exists_conflict db doctor_id visit_time = false := by
  rw [windowConflictsDoctor, List.filter_eq_nil_iff] at h
  rw [← Bool.not_eq_true, exists_conflict, List.any_eq_true]
  rintro ⟨r, hr, hp⟩
  simp only [Bool.and_eq_true, bne_iff_ne, beq_iff_eq] at hp
  obtain ⟨⟨hdoc, hkey⟩, hst⟩ := hp
  obtain ⟨h1, h2⟩ := minuteKey_close hkey
  refine h r hr ?_
  simp only [Bool.and_eq_true, beq_iff_eq, bne_iff_ne, inWindow, decide_eq_true_eq]
  exact ⟨⟨hdoc, hst⟩, by omega, by omega⟩

/-- Patient-side analogue of `window_nil_exists_conflict_false`. -/
lemma window_nil_exists_patient_conflict_false {db : DB} {patient_id : Nat}
    {visit_time : Int}
    (h : windowConflictsPatient db patient_id visit_time = []) :
    exists_patient_conflict db patient_id visit_time = false := by
  rw [windowConflictsPatient, List.filter_eq_nil_iff] at h
  rw [← Bool.not_eq_true, exists_patient_conflict, List.any_eq_true]
  rintro ⟨r, hr, hp⟩
  simp only [Bool.and_eq_true, bne_iff_ne, beq_iff_eq] at hp
  obtain ⟨⟨hpat, hkey⟩, hst⟩ := hp
  obtain ⟨h1, h2⟩ := minuteKey_close hkey
  refine h r hr ?_
  simp only [Bool.and_eq_true, beq_iff_eq, bne_iff_ne, inWindow, decide_eq_true_eq]
  exact ⟨⟨hpat, hst⟩, by omega, by omega⟩


/-- Forward evaluation: with all lookups succeeding, a consistent
department, a non-past time, empty window query results and a writable
store, `create_registration` inserts the new row and returns it. -/
lemma create_registration_ok_of_no_conflict
    (db : DB) (now : Int) (pid did dept_id : Nat) (vt : Int) (st : String) (sy : Option String)
    {patient : Patient} {doctor : Doctor} {department : Department}
    (hp : findPatient db pid = some patient)
    (hd : findDoctor db did = some doctor)
    (hdep : findDepartment db dept_id = some department)
    (hmatch : doctor.department_id = department.id)
    (hfut : ¬ vt < now)
    (hwd : windowConflictsDoctor db doctor.id vt = [])
    (hwp : windowConflictsPatient db patient.id vt = [])
    (hro : db.readOnly = false) :
    create_registration db now pid did dept_id vt st sy =
      (Except.ok
        { id := db.nextRegId, patient_id := patient.id, doctor_id := doctor.id,
          department_id := department.id, visit_time := vt, status := st,
          symptoms := sy, created_at := now },
       { db with
         registrations := db.registrations ++
           [{ id := db.nextRegId, patient_id := patient.id, doctor_id := doctor.id,
              department_id := department.id, visit_time := vt, status := st,
              symptoms := sy, created_at := now }],
         nextRegId := db.nextRegId + 1 }) := by
  have hec := window_nil_exists_conflict_false hwd
  have hep := window_nil_exists_patient_conflict_false hwp
  have hmm : ¬ doctor.department_id ≠ department.id := by simp [hmatch]
  unfold create_registration
  rw [hp]; dsimp only
  rw [hd]; dsimp only
  rw [hdep]; dsimp only
  rw [if_neg hmm, if_neg hfut, hwd]; dsimp only
  rw [hwp]; dsimp only
  rw [hec, hep, hro]
  simp

/-- Inversion: everything that must have held when `create_registration`
returned `ok`, and the resulting state. -/
lemma create_registration_ok_inversion
    {db : DB} {now : Int} {pid did dept_id : Nat} {vt : Int} {st : String} {sy : Option String}
    {r : Registration}
    (hok : (create_registration db now pid did dept_id vt st sy).1 = Except.ok r) :
    ∃ patient doctor department,
      findPatient db pid = some patient ∧
      findDoctor db did = some doctor ∧
      findDepartment db dept_id = some department ∧
      doctor.department_id = department.id ∧
      ¬ vt < now ∧
      windowConflictsDoctor db doctor.id vt = [] ∧
      windowConflictsPatient db patient.id vt = [] ∧
      db.readOnly = false ∧
      r = { id := db.nextRegId, patient_id := patient.id, doctor_id := doctor.id,
            department_id := department.id, visit_time := vt, status := st,
            symptoms := sy, created_at := now } ∧
      (create_registration db now pid did dept_id vt st sy).2 =
        { db with
          registrations := db.registrations ++ [r],
          nextRegId := db.nextRegId + 1 } := by
  obtain ⟨patient, hp⟩ : ∃ p, findPatient db pid = some p := by
    cases hfp : findPatient db pid with
    | none =>
      unfold create_registration at hok
      rw [hfp] at hok; simp at hok
    | some p => exact ⟨p, rfl⟩
  obtain ⟨doctor, hd⟩ : ∃ d, findDoctor db did = some d := by
    cases hfd : findDoctor db did with
    | none =>
      unfold create_registration at hok
      rw [hp] at hok; dsimp only at hok
      rw [hfd] at hok; simp at hok
    | some d => exact ⟨d, rfl⟩
  obtain ⟨department, hdep⟩ : ∃ d, findDepartment db dept_id = some d := by
    cases hfd : findDepartment db dept_id with
    | none =>
      unfold create_registration at hok
      rw [hp] at hok; dsimp only at hok
      rw [hd] at hok; dsimp only at hok
      rw [hfd] at hok; simp at hok
    | some d => exact ⟨d, rfl⟩
  unfold create_registration at hok
  rw [hp] at hok; dsimp only at hok
  rw [hd] at hok; dsimp only at hok
  rw [hdep] at hok; dsimp only at hok
  by_cases hmm : doctor.department_id ≠ department.id
  · rw [if_pos hmm] at hok; simp at hok
  rw [if_neg hmm] at hok
  push_neg at hmm
  by_cases hpast : vt < now
  · rw [if_pos hpast] at hok; simp at hok
  rw [if_neg hpast] at hok
  cases hwd : windowConflictsDoctor db doctor.id vt with
  | cons a tl =>
    cases tl with
    | nil => rw [hwd] at hok; simp at hok
    | cons b tl2 => rw [hwd] at hok; simp at hok
  | nil =>
  rw [hwd] at hok; dsimp only at hok
  cases hwp : windowConflictsPatient db patient.id vt with
  | cons a tl =>
    cases tl with
    | nil => rw [hwp] at hok; simp at hok
    | cons b tl2 => rw [hwp] at hok; simp at hok
  | nil =>
  rw [hwp] at hok; dsimp only at hok
  rw [window_nil_exists_conflict_false hwd,
      window_nil_exists_patient_conflict_false hwp] at hok
  by_cases hro2 : db.readOnly = true
  · rw [if_neg, if_neg, if_pos hro2] at hok
    · simp at hok
    · simp
    · simp
  have hro : db.readOnly = false := by simpa using hro2
  rw [hro] at hok
  simp only [Bool.false_eq_true, if_false] at hok
  have hreq :
      r = { id := db.nextRegId, patient_id := patient.id, doctor_id := doctor.id,
            department_id := department.id, visit_time := vt, status := st,
            symptoms := sy, created_at := now } := by
    simpa using hok.symm
  have heq := create_registration_ok_of_no_conflict db now pid did dept_id vt st sy
    hp hd hdep hmm hpast hwd hwp hro
  exact ⟨patient, doctor, department, hp, hd, hdep, hmm, hpast, hwd, hwp, hro, hreq,
    by rw [heq, hreq]⟩

/-- The doctor-side window query returning exactly one row produces
`DoctorBusyError`. -/
lemma create_registration_doctorBusy_of_single
    (db : DB) (now : Int) (pid did dept_id : Nat) (vt : Int) (st : String) (sy : Option String)
    {patient : Patient} {doctor : Doctor} {department : Department} {c : Registration}
    (hp : findPatient db pid = some patient)
    (hd : findDoctor db did = some doctor)
    (hdep : findDepartment db dept_id = some department)
    (hmatch : doctor.department_id = department.id)
    (hfut : ¬ vt < now)
    (hwd : windowConflictsDoctor db doctor.id vt = [c]) :
    create_registration db now pid did dept_id vt st sy =
      (Except.error (Err.doctorBusy "该医生在该时间段已有预约，请刷新后选择其他时段"), db) := by
  have hmm : ¬ doctor.department_id ≠ department.id := by simp [hmatch]
  unfold create_registration
  rw [hp]; dsimp only
  rw [hd]; dsimp only
  rw [hdep]; dsimp only
  rw [if_neg hmm, if_neg hfut, hwd]

/-- With no doctor-side window rows and exactly one patient-side row,
`create_registration` fails with `PatientBusyError`. -/
lemma create_registration_patientBusy_of_single
    (db : DB) (now : Int) (pid did dept_id : Nat) (vt : Int) (st : String) (sy : Option String)
    {patient : Patient} {doctor : Doctor} {department : Department} {c : Registration}
    (hp : findPatient db pid = some patient)
    (hd : findDoctor db did = some doctor)
    (hdep : findDepartment db dept_id = some department)
    (hmatch : doctor.department_id = department.id)
    (hfut : ¬ vt < now)
    (hwd : windowConflictsDoctor db doctor.id vt = [])
    (hwp : windowConflictsPatient db patient.id vt = [c]) :
    create_registration db now pid did dept_id vt st sy =
      (Except.error (Err.patientBusy "该患者在该时间段已有预约，请刷新后选择其他时段"), db) := by
  have hmm : ¬ doctor.department_id ≠ department.id := by simp [hmatch]
  unfold create_registration
  rw [hp]; dsimp only
  rw [hd]; dsimp only
  rw [hdep]; dsimp only
  rw [if_neg hmm, if_neg hfut, hwd]; dsimp only
  rw [hwp]

/-- Two or more doctor-side window rows surface the raw
`MultipleResultsFound` from `scalar_one_or_none`. -/
lemma create_registration_multiple_of_two
    (db : DB) (now : Int) (pid did dept_id : Nat) (vt : Int) (st : String) (sy : Option String)
    {patient : Patient} {doctor : Doctor} {department : Department}
    {a b : Registration} {tl : List Registration}
    (hp : findPatient db pid = some patient)
    (hd : findDoctor db did = some doctor)
    (hdep : findDepartment db dept_id = some department)
    (hmatch : doctor.department_id = department.id)
    (hfut : ¬ vt < now)
    (hwd : windowConflictsDoctor db doctor.id vt = a :: b :: tl) :
    create_registration db now pid did dept_id vt st sy =
      (Except.error Err.multipleResultsFound, db) := by
  have hmm : ¬ doctor.department_id ≠ department.id := by simp [hmatch]
  unfold create_registration
  rw [hp]; dsimp only
  rw [hd]; dsimp only
  rw [hdep]; dsimp only
  rw [if_neg hmm, if_neg hfut, hwd]


/-- C2: The conflict test of `create_registration` is a closed-interval
test against a 14-minute-59-second (899-second) radius: for the same
doctor (or patient), two active visits whose timestamps differ by exactly
15 minutes (900 s) do not conflict, while two visits whose timestamps
differ by 14 minutes 59 seconds (899 s) or less — e.g. 14 minutes
58 seconds (898 s) — do conflict. -/
theorem conflict_window_closed_interval :
    (∀ visit_time t : Int, inWindow visit_time t = true ↔
        (visit_time - 899 ≤ t ∧ t ≤ visit_time + 899)) ∧
    (∀ T : Int,
        inWindow T (T + 900) = false ∧ inWindow T (T - 900) = false ∧
        inWindow T (T + 898) = true ∧ inWindow T (T - 898) = true ∧
        inWindow T (T + 899) = true ∧ inWindow T (T - 899) = true) ∧
    (∀ (db : DB) (doctor_id : Nat) (vt : Int) (r : Registration),
        r ∈ windowConflictsDoctor db doctor_id vt ↔
          (r ∈ db.registrations ∧ r.doctor_id = doctor_id ∧
           r.status ≠ cancelledStatus ∧ inWindow vt r.visit_time = true)) ∧
    (∀ (db : DB) (patient_id : Nat) (vt : Int) (r : Registration),
        r ∈ windowConflictsPatient db patient_id vt ↔
          (r ∈ db.registrations ∧ r.patient_id = patient_id ∧
           r.status ≠ cancelledStatus ∧ inWindow vt r.visit_time = true)) := by
  refine ⟨?_, ?_, ?_, ?_⟩
  · intro vt t; simp [inWindow]
  · intro T
    refine ⟨?_, ?_, ?_, ?_, ?_, ?_⟩ <;> simp [inWindow] <;> omega
  · intro db did vt r
    simp [windowConflictsDoctor, List.mem_filter, Bool.and_eq_true,
      beq_iff_eq, bne_iff_ne, and_assoc]
  · intro db pat vt r
    simp [windowConflictsPatient, List.mem_filter, Bool.and_eq_true,
      beq_iff_eq, bne_iff_ne, and_assoc]

/-- C5: when the patient, doctor and department all exist and the doctor
belongs to the supplied department, a visit time earlier than the current
time makes `create_registration` fail with `ValidationError`, whatever
registrations are stored. -/
theorem create_registration_past_time_validation
    (db : DB) (now : Int) (pid did dept_id : Nat) (vt : Int) (st : String) (sy : Option String)
    {patient : Patient} {doctor : Doctor} {department : Department}
    (hp : findPatient db pid = some patient)
    (hd : findDoctor db did = some doctor)
    (hdep : findDepartment db dept_id = some department)
    (hmatch : doctor.department_id = department.id)
    (hpast : vt < now) :
    create_registration db now pid did dept_id vt st sy =
      (Except.error (Err.validationError "Visit time cannot be in the past."), db) := by
  have hmm : ¬ doctor.department_id ≠ department.id := by simp [hmatch]
  unfold create_registration
  rw [hp]; dsimp only
  rw [hd]; dsimp only
  rw [hdep]; dsimp only
  rw [if_neg hmm, if_pos hpast]

/-- Store used to witness C5: all three entities exist, the doctor matches
the department, and a same-time conflicting registration is present, yet
the past-time request is rejected with `ValidationError`. -/
def dbC5 : DB :=
  { departments := [{ id := 1, name := "内科", description := none }],
    doctors := [{ id := 1, name := "赵医生", specialization := none,
                  contact := none, department_id := 1 }],
    patients := [{ id := 1, name := "王患者", date_of_birth := none,
                   contact_info := none, address := none }],
    registrations := [{ id := 1, patient_id := 1, doctor_id := 1, department_id := 1,
                        visit_time := 50, status := "scheduled", symptoms := none,
                        created_at := 0 }],
    nextDeptId := 2, nextRegId := 2, readOnly := false }

/-- Witness for C5 at a concrete store and request. -/
theorem create_registration_past_time_validation_witness :
    create_registration dbC5 100 1 1 1 50 "scheduled" none =
      (Except.error (Err.validationError "Visit time cannot be in the past."), dbC5) :=
  create_registration_past_time_validation dbC5 100 1 1 1 50 "scheduled" none
    rfl rfl rfl rfl (by decide)

/-- C10: in a sequential execution the exact-minute re-checks of
`create_registration` are redundant — whenever the doctor-side and
patient-side window queries return no active conflict, the exact-minute
guards `exists_conflict` and `exists_patient_conflict` are false, so the
`DoctorBusyError`/`PatientBusyError` branches they guard cannot run. -/
theorem exact_minute_rechecks_redundant
    (db : DB) (doctor_id patient_id : Nat) (visit_time : Int)
    (hwd : windowConflictsDoctor db doctor_id visit_time = [])
    (hwp : windowConflictsPatient db patient_id visit_time = []) :
    exists_conflict db doctor_id visit_time = false ∧
    exists_patient_conflict db patient_id visit_time = false :=
  ⟨window_nil_exists_conflict_false hwd, window_nil_exists_patient_conflict_false hwp⟩

/-- Store used to witness C10: one active registration far outside the
window (exactly 30 minutes away), so the window queries are empty and the
minute guards are silent. -/
def dbC10 : DB :=
  { departments := [{ id := 1, name := "外科", description := none }],
    doctors := [{ id := 1, name := "钱医生", specialization := none,
                  contact := none, department_id := 1 }],
    patients := [{ id := 1, name := "李患者", date_of_birth := none,
                   contact_info := none, address := none }],
    registrations := [{ id := 1, patient_id := 1, doctor_id := 1, department_id := 1,
                        visit_time := 1800, status := "scheduled", symptoms := none,
                        created_at := 0 }],
    nextDeptId := 2, nextRegId := 2, readOnly := false }

/-- Witness for C10 at a concrete store. -/
theorem exact_minute_rechecks_redundant_witness :
    exists_conflict dbC10 1 0 = false ∧ exists_patient_conflict dbC10 1 0 = false :=
  exact_minute_rechecks_redundant dbC10 1 1 0 (by decide) (by decide)

/-- C3 (amended): an absent patient id or department id makes
`create_registration` fail with the system's not-found error
(`ResourceNotFoundError`), but an absent doctor id hits the locked
`scalar_one()` read and surfaces the storage layer's raw `NoResultFound`
instead. -/
theorem create_registration_missing_entity_errors
    (db : DB) (now : Int) (pid did dept_id : Nat) (vt : Int) (st : String)
    (sy : Option String) :
    (findPatient db pid = none →
      create_registration db now pid did dept_id vt st sy =
        (Except.error (Err.resourceNotFound "Patient not found."), db)) ∧
    (∀ patient, findPatient db pid = some patient → findDoctor db did = none →
      create_registration db now pid did dept_id vt st sy =
        (Except.error Err.noResultFound, db)) ∧
    (∀ patient doctor, findPatient db pid = some patient →
      findDoctor db did = some doctor → findDepartment db dept_id = none →
      create_registration db now pid did dept_id vt st sy =
        (Except.error (Err.resourceNotFound "Department not found."), db)) := by
  refine ⟨?_, ?_, ?_⟩
  · intro hp
    unfold create_registration
    rw [hp]
  · intro patient hp hd
    unfold create_registration
    rw [hp]; dsimp only
    rw [hd]
  · intro patient doctor hp hd hdep
    unfold create_registration
    rw [hp]; dsimp only
    rw [hd]; dsimp only
    rw [hdep]

/-- Store used for C3: patient 1 and department 1 exist, the doctors table
is empty. -/
def dbC3 : DB :=
  { departments := [{ id := 1, name := "儿科", description := none }],
    doctors := [],
    patients := [{ id := 1, name := "孙患者", date_of_birth := none,
                   contact_info := none, address := none }],
    registrations := [],
    nextDeptId := 2, nextRegId := 1, readOnly := false }

/-- Counterexample to C3 as stated: with an existing patient and an absent
doctor id, the error raised is the raw `NoResultFound`, not the system's
`ResourceNotFoundError`. -/
theorem create_registration_absent_doctor_raw_error :
    (create_registration dbC3 0 1 1 1 100 "scheduled" none).1 =
        Except.error Err.noResultFound ∧
    isNotFoundErr (create_registration dbC3 0 1 1 1 100 "scheduled" none).1 = false := by
  constructor <;> rfl

/-- Witness for C3's amended theorem at the concrete store `dbC3`. -/
theorem create_registration_missing_entity_errors_witness :
    create_registration dbC3 0 1 1 1 100 "scheduled" none =
      (Except.error Err.noResultFound, dbC3) :=
  (create_registration_missing_entity_errors dbC3 0 1 1 1 100 "scheduled" none).2.1
    { id := 1, name := "孙患者", date_of_birth := none,
      contact_info := none, address := none } rfl rfl

/-- C6: when the three entities exist but the doctor's `department_id`
differs from the supplied department's id, `create_registration` fails
with `ValidationError` no matter the stored registrations or the visit
time; and every registration `create_registration` ever returns carries
its doctor's `department_id`. -/
theorem create_registration_department_mismatch
    (db : DB) (now : Int) (pid did dept_id : Nat) (vt : Int) (st : String)
    (sy : Option String)
    {patient : Patient} {doctor : Doctor} {department : Department}
    (hp : findPatient db pid = some patient)
    (hd : findDoctor db did = some doctor)
    (hdep : findDepartment db dept_id = some department)
    (hmm : doctor.department_id ≠ department.id) :
    create_registration db now pid did dept_id vt st sy =
      (Except.error (Err.validationError "Doctor must belong to the selected department."), db) ∧
    (∀ (db2 : DB) (now2 : Int) (pid2 did2 dep2 : Nat) (vt2 : Int) (st2 : String)
        (sy2 : Option String) (doctor2 : Doctor) (r : Registration),
        findDoctor db2 did2 = some doctor2 →
        (create_registration db2 now2 pid2 did2 dep2 vt2 st2 sy2).1 = Except.ok r →
        r.doctor_id = doctor2.id ∧ r.department_id = doctor2.department_id) := by
  constructor
  · unfold create_registration
    rw [hp]; dsimp only
    rw [hd]; dsimp only
    rw [hdep]; dsimp only
    rw [if_pos hmm]
  · intro db2 now2 pid2 did2 dep2 vt2 st2 sy2 doctor2 r hd2 hok
    obtain ⟨p2, d2, dd2, _, hd2x, _, hmatch2, _, _, _, _, hr, _⟩ :=
      create_registration_ok_inversion hok
    have hded : doctor2 = d2 := by
      have := hd2.symm.trans hd2x
      exact Option.some_injective _ this
    subst hded
    subst hr
    exact ⟨rfl, hmatch2.symm⟩

/-- Store used to witness C6: doctor 1 belongs to department 1 while
department 2 also exists; booking doctor 1 under department 2 is
rejected. -/
def dbC6 : DB :=
  { departments := [{ id := 1, name := "骨科", description := none },
                    { id := 2, name := "眼科", description := none }],
    doctors := [{ id := 1, name := "周医生", specialization := none,
                  contact := none, department_id := 1 }],
    patients := [{ id := 1, name := "吴患者", date_of_birth := none,
                   contact_info := none, address := none }],
    registrations := [],
    nextDeptId := 3, nextRegId := 1, readOnly := false }

/-- Witness for C6 at a concrete store and request. -/
theorem create_registration_department_mismatch_witness :
    create_registration dbC6 0 1 1 2 100 "scheduled" none =
      (Except.error (Err.validationError "Doctor must belong to the selected department."),
        dbC6) :=
  (create_registration_department_mismatch dbC6 0 1 1 2 100 "scheduled" none
    rfl rfl rfl (by decide)).1

/-- C7 (amended): `create_department` with a name equal to an existing
department's name fails — but with the storage layer's raw
`IntegrityError` from the unique constraint, not `ValidationError`; on
success it returns the new `Department` with the requested name, and
success implies no existing department already had that name. -/
theorem create_department_unique_name (db : DB) (name : String) (desc : Option String) :
    (db.departments.any (fun d => d.name == name) = true → db.readOnly = false →
      create_department db name desc = (Except.error Err.integrityError, db)) ∧
    (∀ d, (create_department db name desc).1 = Except.ok d →
      d.name = name ∧ ∀ d0 ∈ db.departments, d0.name ≠ name) := by
  constructor
  · intro hdup hro
    unfold create_department
    rw [hro]
    simp [hdup]
  · intro d hok
    unfold create_department at hok
    by_cases hro : db.readOnly = true
    · rw [if_pos hro] at hok; simp at hok
    rw [if_neg hro] at hok
    by_cases hdup : db.departments.any (fun d => d.name == name) = true
    · rw [if_pos hdup] at hok; simp at hok
    rw [if_neg hdup] at hok
    dsimp only at hok
    simp only [Except.ok.injEq] at hok
    subst hok
    refine ⟨rfl, ?_⟩
    intro d0 hd0 hne
    exact hdup (List.any_eq_true.mpr ⟨d0, hd0, by simp [hne]⟩)

/-- Store used for C7: one department named `急诊科`. -/
def dbC7 : DB :=
  { departments := [{ id := 1, name := "急诊科", description := none }],
    doctors := [], patients := [], registrations := [],
    nextDeptId := 2, nextRegId := 1, readOnly := false }

/-- Counterexample to C7 as stated: creating a second `急诊科` department
fails with the raw `IntegrityError`, not with `ValidationError`. -/
theorem create_department_duplicate_raw_error :
    (create_department dbC7 "急诊科" none).1 = Except.error Err.integrityError ∧
    isValidationErr (create_department dbC7 "急诊科" none).1 = false := by
  constructor <;> rfl

/-- Witness for C7's amended theorem at the concrete store `dbC7`. -/
theorem create_department_unique_name_witness :
    create_department dbC7 "急诊科" none = (Except.error Err.integrityError, dbC7) :=
  (create_department_unique_name dbC7 "急诊科" none).1 rfl rfl

/-- C8: completing an existing registration stores status `completed` and
the completed registration appears in `list_registrations` filtered on
`completed`; deleting an existing registration removes it from every
subsequent listing whatever the filters; both operations fail with the
system's not-found error on an absent id. -/
theorem lifecycle_complete_delete_spec (db : DB) (rid : Nat) :
    (∀ reg, findRegistration db rid = some reg → db.readOnly = false →
      (complete_registration db rid).1 = Except.ok { reg with status := "completed" } ∧
      ∃ x ∈ list_registrations (complete_registration db rid).2 none none (some "completed"),
        x.id = rid ∧ x.status = "completed") ∧
    (∀ reg, findRegistration db rid = some reg → db.readOnly = false →
      (delete_registration db rid).1 = Except.ok () ∧
      ∀ (dep : Option Nat) (vd : Option Int) (stf : Option String),
        ∀ x ∈ list_registrations (delete_registration db rid).2 dep vd stf, x.id ≠ rid) ∧
    (findRegistration db rid = none →
      (complete_registration db rid).1 =
          Except.error (Err.resourceNotFound "Registration not found.") ∧
      (delete_registration db rid).1 =
          Except.error (Err.resourceNotFound "Registration not found.")) := by
  refine ⟨?_, ?_, ?_⟩
  · intro reg hreg hro
    have hreg' : db.registrations.find? (fun r => r.id == rid) = some reg := hreg
    have hid0 := List.find?_some hreg'
    have hid : (reg.id == rid) = true := hid0
    have hmem : reg ∈ db.registrations := List.mem_of_find?_eq_some hreg'
    unfold complete_registration
    rw [hreg]; dsimp only
    rw [hro]
    simp only [Bool.false_eq_true, if_false]
    refine ⟨by trivial, ⟨{ reg with status := "completed" }, ?_, ?_, rfl⟩⟩
    · unfold list_registrations
      refine List.mem_filter.mpr ⟨?_, by simp⟩
      have himg :
          (fun r => if r.id == rid then { r with status := "completed" } else r) reg =
            { reg with status := "completed" } := by
        simp [hid]
      exact himg ▸ List.mem_map_of_mem
        (fun r => if r.id == rid then { r with status := "completed" } else r) hmem
    · exact beq_iff_eq.mp hid
  · intro reg hreg hro
    unfold delete_registration
    rw [hreg]; dsimp only
    rw [hro]
    simp only [Bool.false_eq_true, if_false]
    refine ⟨by trivial, ?_⟩
    intro dep vd stf x hx
    unfold list_registrations at hx
    have hx1 := (List.mem_filter.mp hx).1
    have hx2 := (List.mem_filter.mp hx1).2
    simpa using hx2
  · intro hnone
    constructor
    · unfold complete_registration
      rw [hnone]
    · unfold delete_registration
      rw [hnone]

/-- Store used to witness C8: one scheduled registration with id 1. -/
def dbC8 : DB :=
  { departments := [{ id := 1, name := "皮肤科", description := none }],
    doctors := [{ id := 1, name := "郑医生", specialization := none,
                  contact := none, department_id := 1 }],
    patients := [{ id := 1, name := "冯患者", date_of_birth := none,
                   contact_info := none, address := none }],
    registrations := [{ id := 1, patient_id := 1, doctor_id := 1, department_id := 1,
                        visit_time := 600, status := "scheduled", symptoms := none,
                        created_at := 0 }],
    nextDeptId := 2, nextRegId := 2, readOnly := false }

/-- Witness for C8 at the concrete store `dbC8`. -/
theorem lifecycle_complete_delete_spec_witness :
    (complete_registration dbC8 1).1 =
        Except.ok { id := 1, patient_id := 1, doctor_id := 1, department_id := 1,
                    visit_time := 600, status := "completed", symptoms := none,
                    created_at := 0 } ∧
    (delete_registration dbC8 1).1 = Except.ok () := by
  have h := lifecycle_complete_delete_spec dbC8 1
  exact ⟨(h.1 { id := 1, patient_id := 1, doctor_id := 1, department_id := 1,
                visit_time := 600, status := "scheduled", symptoms := none,
                created_at := 0 } rfl rfl).1,
         (h.2.1 { id := 1, patient_id := 1, doctor_id := 1, department_id := 1,
                  visit_time := 600, status := "scheduled", symptoms := none,
                  created_at := 0 } rfl rfl).1⟩

/-- Branch analysis for C9: `create_registration` either leaves the store
untouched or succeeds. -/
lemma create_registration_state_cases
    (db : DB) (now : Int) (pid did dept_id : Nat) (vt : Int) (st : String)
    (sy : Option String) :
    (create_registration db now pid did dept_id vt st sy).2 = db ∨
    ∃ r, (create_registration db now pid did dept_id vt st sy).1 = Except.ok r := by
  unfold create_registration
  repeat' split
  all_goals first
    | exact Or.inl rfl
    | exact Or.inr ⟨_, rfl⟩

/-- C9: every failing `create_registration`, `complete_registration` or
`delete_registration` returns the store exactly as it was (the rollback),
and a read-only-storage failure of the two lifecycle operations surfaces
as `ValidationError`, not as a raw storage exception. -/
theorem failure_leaves_state_unchanged
    (db : DB) (now : Int) (pid did dept_id : Nat) (vt : Int) (st : String)
    (sy : Option String) (rid : Nat) :
    (∀ e, (create_registration db now pid did dept_id vt st sy).1 = Except.error e →
      (create_registration db now pid did dept_id vt st sy).2 = db) ∧
    (∀ e, (complete_registration db rid).1 = Except.error e →
      (complete_registration db rid).2 = db) ∧
    (∀ e, (delete_registration db rid).1 = Except.error e →
      (delete_registration db rid).2 = db) ∧
    (∀ reg, findRegistration db rid = some reg → db.readOnly = true →
      isValidationErr (complete_registration db rid).1 = true ∧
      isValidationErr (delete_registration db rid).1 = true) := by
  refine ⟨?_, ?_, ?_, ?_⟩
  · intro e he
    rcases create_registration_state_cases db now pid did dept_id vt st sy with h | ⟨r, hr⟩
    · exact h
    · rw [he] at hr; exact absurd hr (by simp)
  · intro e he
    unfold complete_registration at he ⊢
    cases hf : findRegistration db rid with
    | none => rfl
    | some reg =>
      rw [hf] at he
      dsimp only at he ⊢
      by_cases hro : db.readOnly = true
      · rw [if_pos hro]
      · rw [if_neg hro] at he; simp at he
  · intro e he
    unfold delete_registration at he ⊢
    cases hf : findRegistration db rid with
    | none => rfl
    | some reg =>
      rw [hf] at he
      dsimp only at he ⊢
      by_cases hro : db.readOnly = true
      · rw [if_pos hro]
      · rw [if_neg hro] at he; simp at he
  · intro reg hreg hro
    constructor
    · unfold complete_registration
      rw [hreg]; dsimp only
      rw [hro]
      rfl
    · unfold delete_registration
      rw [hreg]; dsimp only
      rw [hro]
      rfl

/-- Store used to witness C9: read-only, one scheduled registration, and
patient id 99 absent so the creation fails at the first lookup. -/
def dbC9 : DB :=
  { departments := [{ id := 1, name := "口腔科", description := none }],
    doctors := [{ id := 1, name := "陈医生", specialization := none,
                  contact := none, department_id := 1 }],
    patients := [{ id := 1, name := "褚患者", date_of_birth := none,
                   contact_info := none, address := none }],
    registrations := [{ id := 1, patient_id := 1, doctor_id := 1, department_id := 1,
                        visit_time := 600, status := "scheduled", symptoms := none,
                        created_at := 0 }],
    nextDeptId := 2, nextRegId := 2, readOnly := true }

/-- Witness for C9 at the concrete store `dbC9`. -/
theorem failure_leaves_state_unchanged_witness :
    (create_registration dbC9 0 99 1 1 100 "scheduled" none).2 = dbC9 ∧
    isValidationErr (complete_registration dbC9 1).1 = true := by
  have h := failure_leaves_state_unchanged dbC9 0 99 1 1 100 "scheduled" none 1
  exact ⟨h.1 (Err.resourceNotFound "Patient not found.") rfl,
         (h.2.2.2 { id := 1, patient_id := 1, doctor_id := 1, department_id := 1,
                    visit_time := 600, status := "scheduled", symptoms := none,
                    created_at := 0 } rfl rfl).1⟩

/-- C4: a registration whose status equals the cancellation marker
`已取消` is invisible to both the window conflict queries and the
exact-minute guards, so it never blocks a new booking at the same time for
the same doctor or patient; any other status (scheduled, completed, ...)
occupies the slot. -/
theorem cancelled_registrations_never_block :
    (∀ (db : DB) (doctor_id patient_id : Nat) (vt : Int),
      (∀ r ∈ db.registrations, r.status = cancelledStatus) →
      windowConflictsDoctor db doctor_id vt = [] ∧
      windowConflictsPatient db patient_id vt = [] ∧
      exists_conflict db doctor_id vt = false ∧
      exists_patient_conflict db patient_id vt = false) ∧
    (∀ (db : DB) (now : Int) (pid did dept_id : Nat) (vt : Int) (st : String)
        (sy : Option String) (patient : Patient) (doctor : Doctor)
        (department : Department),
      findPatient db pid = some patient →
      findDoctor db did = some doctor →
      findDepartment db dept_id = some department →
      doctor.department_id = department.id →
      ¬ vt < now →
      db.readOnly = false →
      (∀ r ∈ db.registrations, r.status = cancelledStatus) →
      ∃ r, (create_registration db now pid did dept_id vt st sy).1 = Except.ok r) ∧
    (∀ (db : DB) (now : Int) (pid did dept_id : Nat) (vt : Int) (st : String)
        (sy : Option String) (doctor : Doctor) (reg : Registration),
      findDoctor db did = some doctor →
      reg ∈ db.registrations → reg.doctor_id = doctor.id →
      reg.status ≠ cancelledStatus → reg.visit_time = vt →
      isOkResult (create_registration db now pid did dept_id vt st sy).1 = false) := by
  refine ⟨?_, ?_, ?_⟩
  · intro db did pid vt hall
    refine ⟨?_, ?_, ?_, ?_⟩
    · rw [windowConflictsDoctor, List.filter_eq_nil_iff]
      intro r hr
      simp [hall r hr]
    · rw [windowConflictsPatient, List.filter_eq_nil_iff]
      intro r hr
      simp [hall r hr]
    · rw [exists_conflict, ← Bool.not_eq_true, List.any_eq_true]
      rintro ⟨r, hr, hpr⟩
      simp [hall r hr] at hpr
    · rw [exists_patient_conflict, ← Bool.not_eq_true, List.any_eq_true]
      rintro ⟨r, hr, hpr⟩
      simp [hall r hr] at hpr
  · intro db now pid did dept_id vt st sy patient doctor department hp hd hdep hmatch
      hfut hro hall
    have hwd : windowConflictsDoctor db doctor.id vt = [] := by
      rw [windowConflictsDoctor, List.filter_eq_nil_iff]
      intro r hr
      simp [hall r hr]
    have hwp : windowConflictsPatient db patient.id vt = [] := by
      rw [windowConflictsPatient, List.filter_eq_nil_iff]
      intro r hr
      simp [hall r hr]
    have heq := create_registration_ok_of_no_conflict db now pid did dept_id vt st sy
      hp hd hdep hmatch hfut hwd hwp hro
    exact ⟨_, by rw [heq]⟩
  · intro db now pid did dept_id vt st sy doctor reg hd hmem hdoc hst hvt
    cases hres : (create_registration db now pid did dept_id vt st sy).1 with
    | error e => simp [isOkResult]
    | ok r =>
      exfalso
      obtain ⟨p2, d2, dd2, hp2, hd2, hdep2, _, _, hwd, _, _, _, _⟩ :=
        create_registration_ok_inversion hres
      have hded : doctor = d2 := Option.some_injective _ (hd.symm.trans hd2)
      rw [windowConflictsDoctor, List.filter_eq_nil_iff] at hwd
      refine hwd reg hmem ?_
      simp only [Bool.and_eq_true, beq_iff_eq, bne_iff_ne, inWindow,
        decide_eq_true_eq]
      refine ⟨⟨?_, hst⟩, by omega, by omega⟩
      rw [hdoc, hded]

/-- Store used to witness C4 (cancelled side): the only stored
registration is a cancelled one for the same doctor, patient and minute as
the incoming request. -/
def dbC4 : DB :=
  { departments := [{ id := 1, name := "呼吸科", description := none }],
    doctors := [{ id := 1, name := "卫医生", specialization := none,
                  contact := none, department_id := 1 }],
    patients := [{ id := 1, name := "蒋患者", date_of_birth := none,
                   contact_info := none, address := none }],
    registrations := [{ id := 1, patient_id := 1, doctor_id := 1, department_id := 1,
                        visit_time := 0, status := "已取消", symptoms := none,
                        created_at := 0 }],
    nextDeptId := 2, nextRegId := 2, readOnly := false }

/-- Store used to witness C4 (active side): a completed registration for
the doctor at exactly the requested time. -/
def dbC4b : DB :=
  { departments := [{ id := 1, name := "消化科", description := none }],
    doctors := [{ id := 1, name := "沈医生", specialization := none,
                  contact := none, department_id := 1 }],
    patients := [{ id := 1, name := "韩患者", date_of_birth := none,
                   contact_info := none, address := none }],
    registrations := [{ id := 1, patient_id := 1, doctor_id := 1, department_id := 1,
                        visit_time := 600, status := "completed", symptoms := none,
                        created_at := 0 }],
    nextDeptId := 2, nextRegId := 2, readOnly := false }

/-- Witness for C4: the cancelled same-time registration does not block
the booking, while a completed one at the same time does. -/
theorem cancelled_registrations_never_block_witness :
    (∃ r, (create_registration dbC4 0 1 1 1 0 "scheduled" none).1 = Except.ok r) ∧
    isOkResult (create_registration dbC4b 0 1 1 1 600 "scheduled" none).1 = false := by
  constructor
  · exact cancelled_registrations_never_block.2.1 dbC4 0 1 1 1 0 "scheduled" none
      { id := 1, name := "蒋患者", date_of_birth := none, contact_info := none,
        address := none }
      { id := 1, name := "卫医生", specialization := none, contact := none,
        department_id := 1 }
      { id := 1, name := "呼吸科", description := none }
      rfl rfl rfl rfl (by decide) rfl (by decide)
  · exact cancelled_registrations_never_block.2.2 dbC4b 0 1 1 1 600 "scheduled" none
      { id := 1, name := "沈医生", specialization := none, contact := none,
        department_id := 1 }
      { id := 1, patient_id := 1, doctor_id := 1, department_id := 1,
        visit_time := 600, status := "completed", symptoms := none, created_at := 0 }
      rfl (by decide) rfl (by decide) rfl

/-- C1 (amended): with existing patient/doctor/department, a matching
department, a non-past visit time and a writable store,
`create_registration` succeeds and appends exactly the new row if and only
if no active registration for that doctor or that patient has a visit time
in the closed window `[T − 14:59, T + 14:59]`; the doctor side is checked
first and reports `DoctorBusyError` when its window query returns a single
row, the patient side likewise reports `PatientBusyError` — but with two
or more rows in a window `scalar_one_or_none` raises the raw
`MultipleResultsFound` instead of a busy error. -/
theorem create_registration_success_iff_no_window_conflict
    (db : DB) (now : Int) (pid did dept_id : Nat) (vt : Int) (st : String)
    (sy : Option String)
    {patient : Patient} {doctor : Doctor} {department : Department}
    (hp : findPatient db pid = some patient)
    (hd : findDoctor db did = some doctor)
    (hdep : findDepartment db dept_id = some department)
    (hmatch : doctor.department_id = department.id)
    (hfut : ¬ vt < now)
    (hro : db.readOnly = false) :
    ((∃ r, (create_registration db now pid did dept_id vt st sy).1 = Except.ok r ∧
        (create_registration db now pid did dept_id vt st sy).2.registrations =
          db.registrations ++ [r]) ↔
      (¬ doctorWindowConflict db doctor.id vt ∧
       ¬ patientWindowConflict db patient.id vt)) ∧
    (∀ c, windowConflictsDoctor db doctor.id vt = [c] →
      (create_registration db now pid did dept_id vt st sy).1 =
        Except.error (Err.doctorBusy "该医生在该时间段已有预约，请刷新后选择其他时段")) ∧
    (∀ c, windowConflictsDoctor db doctor.id vt = [] →
      windowConflictsPatient db patient.id vt = [c] →
      (create_registration db now pid did dept_id vt st sy).1 =
        Except.error (Err.patientBusy "该患者在该时间段已有预约，请刷新后选择其他时段")) := by
  refine ⟨⟨?_, ?_⟩, ?_, ?_⟩
  · rintro ⟨r, hok, _⟩
    obtain ⟨p2, d2, dd2, hp2, hd2, hdep2, _, _, hwd, hwp, _, _, _⟩ :=
      create_registration_ok_inversion hok
    have hdp : patient = p2 := Option.some_injective _ (hp.symm.trans hp2)
    have hdd : doctor = d2 := Option.some_injective _ (hd.symm.trans hd2)
    subst hdp
    subst hdd
    exact ⟨windowConflictsDoctor_eq_nil_iff.mp hwd,
           windowConflictsPatient_eq_nil_iff.mp hwp⟩
  · rintro ⟨hndc, hnpc⟩
    have hwd := windowConflictsDoctor_eq_nil_iff.mpr hndc
    have hwp := windowConflictsPatient_eq_nil_iff.mpr hnpc
    have heq := create_registration_ok_of_no_conflict db now pid did dept_id vt st sy
      hp hd hdep hmatch hfut hwd hwp hro
    exact ⟨_, by rw [heq], by rw [heq]⟩
  · intro c hwd
    rw [create_registration_doctorBusy_of_single db now pid did dept_id vt st sy
      hp hd hdep hmatch hfut hwd]
  · intro c hwd hwp
    rw [create_registration_patientBusy_of_single db now pid did dept_id vt st sy
      hp hd hdep hmatch hfut hwd hwp]

/-- Store used for C1's counterexample: two active registrations for
doctor 1 at times 0 and 1798 — more than 14:59 apart from each other, so
both could be booked — and both inside the request window around 899. -/
def dbC1 : DB :=
  { departments := [{ id := 1, name := "神经科", description := none }],
    doctors := [{ id := 1, name := "杨医生", specialization := none,
                  contact := none, department_id := 1 }],
    patients := [{ id := 1, name := "朱患者", date_of_birth := none,
                   contact_info := none, address := none },
                 { id := 2, name := "秦患者", date_of_birth := none,
                   contact_info := none, address := none }],
    registrations := [{ id := 1, patient_id := 1, doctor_id := 1, department_id := 1,
                        visit_time := 0, status := "scheduled", symptoms := none,
                        created_at := 0 },
                      { id := 2, patient_id := 1, doctor_id := 1, department_id := 1,
                        visit_time := 1798, status := "scheduled", symptoms := none,
                        created_at := 0 }],
    nextDeptId := 2, nextRegId := 3, readOnly := false }

/-- Counterexample to C1 as stated: the request at time 899 has an active
doctor-side conflict, yet the outcome is the raw `MultipleResultsFound`
rather than `DoctorBusyError`, because the window holds two rows. -/
theorem create_registration_two_conflicts_raw_error :
    doctorWindowConflict dbC1 1 899 ∧
    (create_registration dbC1 0 2 1 1 899 "scheduled" none).1 =
      Except.error Err.multipleResultsFound := by
  constructor
  · decide
  · rfl

/-- Store used to witness C1: a single active registration for doctor 1
at time 0. -/
def dbC1w : DB :=
  { departments := [{ id := 1, name := "心内科", description := none }],
    doctors := [{ id := 1, name := "许医生", specialization := none,
                  contact := none, department_id := 1 }],
    patients := [{ id := 1, name := "何患者", date_of_birth := none,
                   contact_info := none, address := none },
                 { id := 2, name := "吕患者", date_of_birth := none,
                   contact_info := none, address := none }],
    registrations := [{ id := 1, patient_id := 1, doctor_id := 1, department_id := 1,
                        visit_time := 0, status := "scheduled", symptoms := none,
                        created_at := 0 }],
    nextDeptId := 2, nextRegId := 2, readOnly := false }

/-- Witness for C1's amended theorem: one row in the doctor window gives
`DoctorBusyError`. -/
theorem create_registration_success_iff_no_window_conflict_witness :
    (create_registration dbC1w 0 2 1 1 600 "scheduled" none).1 =
      Except.error (Err.doctorBusy "该医生在该时间段已有预约，请刷新后选择其他时段") := by
  have h := create_registration_success_iff_no_window_conflict dbC1w 0 2 1 1 600
    "scheduled" none rfl rfl rfl rfl (by decide) rfl
  exact h.2.1
    { id := 1, patient_id := 1, doctor_id := 1, department_id := 1,
      visit_time := 0, status := "scheduled", symptoms := none, created_at := 0 }
    (by decide)

/-- Witness for C2 at a concrete base time: 900 seconds away is outside
the window, 898 seconds away is inside. -/
theorem conflict_window_closed_interval_witness :
    inWindow 32400 (32400 + 900) = false ∧ inWindow 32400 (32400 + 898) = true :=
  ⟨(conflict_window_closed_interval.2.1 32400).1,
   (conflict_window_closed_interval.2.1 32400).2.2.1⟩

end HospitalSystem
